import Mathlib

/-!
Verification development for the SkillMetrics axis/tick layout engine
(`skill_metrics/get_target_diagram_axes.py`) and the marker/legend engine
(`skill_metrics/plot_pattern_diagram_markers.py`).

The Python code is shallowly embedded over exact rationals (`ℚ`): numpy
float arrays become `List ℚ`, Python exceptions become `Except String`,
and the distinction between Python `int`, Python `float` and numpy
`float64` scalars — which the source inspects with `type(...) is float` —
is kept explicit in the `PyNum` type.
-/

/-- Embedding of the Python numeric scalar kinds that
`get_target_diagram_axes` distinguishes: `type(x) is float` is true only
for a plain Python `float`, not for a numpy `float64` scalar (as produced
by indexing a numpy array) and not for an `int`. -/
inductive PyNum where
  | int (n : ℤ)
  | float (q : ℚ)
  | npfloat (q : ℚ)
deriving DecidableEq, Repr

/-- The numeric value carried by a Python scalar. -/
def PyNum.val : PyNum → ℚ
  | .int n => (n : ℚ)
  | .float q => q
  | .npfloat q => q

/-- Embedding of the Python test `type(x) is float`. -/
def PyNum.isFloat : PyNum → Bool
  | .float _ => true
  | _ => false

/-- Embedding of Python's `x.is_integer()` (true when the value is a whole
number). -/
def PyNum.isInteger (p : PyNum) : Bool := p.val.den = 1

/-- The function attributes `get_target_diagram_axes.nxticks` and
`get_target_diagram_axes.nyticks` (source lines 79-87): process-wide
mutable state attached to the function object, absent before the first
fresh call. -/
structure TickCache where
  nxticks : Option ℕ
  nyticks : Option ℕ
deriving DecidableEq, Repr

/-- Embedding of `np.amax(np.absolute(l))` (source lines 62-63). numpy
raises on an empty array; every use in the claims has non-empty data, and
the embedding returns 0 there. -/
def maxAbs (l : List ℚ) : ℚ := l.foldr (fun a m => max |a| m) 0

/-- Embedding of `np.arange(start, stop, step)` for a positive step: the
element count is `⌈(stop - start) / step⌉` and element `k` is
`start + k * step`. -/
def arange (start stop step : ℚ) : List ℚ :=
  (List.range (⌈(stop - start) / step⌉).toNat).map (fun k : ℕ => start + (k : ℚ) * step)

/-- Embedding of `np.sum(vals > 0)` (source lines 72-75): the number of
strictly positive entries. -/
def countPos (l : List ℚ) : ℕ :=
  (l.filter (fun t => decide ((0 : ℚ) < t))).length

/-!
Model of `matplotlib.ticker.AutoLocator().tick_values`, the "nice number"
auto-locator invoked at source lines 70-71. matplotlib is a third-party
dependency, so its locator is reproduced here from its documented
behaviour (the base-{1,2,2.5,5,10} step-selection rule the spec describes
in §4.2): `MaxNLocator` with `nbins = 9` (the value used when no axis
object is attached), steps `[1, 2, 2.5, 5, 10]`, `min_n_ticks = 2`, after
range sanitation by `nonsingular` with `expander = 1e-13, tiny = 1e-14`.
-/

/-- Model of `matplotlib.transforms.nonsingular` with
`expander = 1e-13`, `tiny = 1e-14`, `increasing = True`. -/
def nonsingular (vmin vmax : ℚ) : ℚ × ℚ :=
  let p := if vmax < vmin then (vmax, vmin) else (vmin, vmax)
  let maxabs := max |p.1| |p.2|
  if p.2 - p.1 ≤ maxabs * (1 / 10 ^ 14) then
    if p.1 = 0 ∧ p.2 = 0 then (-(1 / 10 ^ 13), 1 / 10 ^ 13)
    else (p.1 - |p.1| * (1 / 10 ^ 13), p.2 + |p.2| * (1 / 10 ^ 13))
  else p

/-- The staircase of candidate steps built by `MaxNLocator` from the
`AutoLocator` steps `[1, 2, 2.5, 5, 10]`:
`[0.1*steps[:-1], steps, 10*steps[1]]`. -/
def extendedSteps : List ℚ :=
  [1/10, 2/10, 1/4, 1/2, 1, 2, 5/2, 5, 10, 20]

/-- Model of `_Edge_integer.le` (offset 0, closeness tolerance 1e-10):
largest integer edge at or below `x / step`. -/
def edgeLe (step x : ℚ) : ℤ :=
  let d := ⌊x / step⌋
  let m := x / step - d
  if |m - 1| < 1 / 10 ^ 10 then d + 1 else d

/-- Model of `_Edge_integer.ge` (offset 0, closeness tolerance 1e-10):
smallest integer edge at or above `x / step`. -/
def edgeGe (step x : ℚ) : ℤ :=
  let d := ⌊x / step⌋
  let m := x / step - d
  if |m| < 1 / 10 ^ 10 then d else d + 1

/-- Candidate tick list for one step size in `MaxNLocator._raw_ticks`:
`best_vmin = (vmin // step) * step`, edges spanning the range, ticks
`np.arange(low, high + 1) * step + best_vmin`. -/
def ticksForStep (vmin vmax step : ℚ) : List ℚ :=
  let bestVmin := ⌊vmin / step⌋ * step
  let low := edgeLe step (vmin - bestVmin)
  let high := edgeGe step (vmax - bestVmin)
  (List.range (high - low + 1).toNat).map (fun j : ℕ => ((low + j : ℤ) : ℚ) * step + bestVmin)

/-- The descending search of `MaxNLocator._raw_ticks`: starting from the
given step index, keep the first candidate list with at least
`min_n_ticks = 2` ticks inside the range; at index 0 the candidate is used
regardless. -/
def rawTicksLoop (vmin vmax : ℚ) (steps : List ℚ) : ℕ → List ℚ
  | 0 => ticksForStep vmin vmax (steps.getD 0 1)
  | i + 1 =>
    let ticks := ticksForStep vmin vmax (steps.getD (i + 1) 1)
    let nticks := (ticks.filter (fun t => decide (vmin ≤ t ∧ t ≤ vmax))).length
    if 2 ≤ nticks then ticks else rawTicksLoop vmin vmax steps i

/-- Model of `MaxNLocator._raw_ticks` for `nbins = 9` and no offset
(symmetric ranges have mean zero, so `scale_range` returns offset 0 and
scale `10 ^ ⌊log10((vmax - vmin) / nbins)⌋`). -/
def rawTicks (vmin vmax : ℚ) : List ℚ :=
  let nbins : ℕ := 9
  let scale : ℚ := (10 : ℚ) ^ (Int.log 10 ((vmax - vmin) / nbins))
  let steps := extendedSteps.map (fun s => s * scale)
  let rawStep := (vmax - vmin) / nbins
  let istep := steps.findIdx (fun s => decide (rawStep ≤ s))
  rawTicksLoop vmin vmax steps istep

/-- Model of `ticker.AutoLocator().tick_values(vmin, vmax)`. -/
def tick_values (vmin vmax : ℚ) : List ℚ :=
  let p := nonsingular vmin vmax
  rawTicks p.1 p.2

/-- Embedding of source lines 69-89: count the strictly positive auto
ticks; when the count is positive, store the x and y counts in the
function-attribute cache; otherwise fall back to the cached attributes
(the source's guard tests `hasattr(..., "nxticks")` twice, so the branch
is entered whenever `nxticks` is present, and a missing `nyticks` would
surface as an attribute error, not the `ValueError`), and raise
`ValueError` when no attribute was ever saved. -/
def determineTickCounts (cache : TickCache) (xtickvals ytickvals : List ℚ) :
    Except String (ℕ × ℕ × TickCache) :=
  let ntest := countPos xtickvals
  if 0 < ntest then
    let nx := countPos xtickvals
    let ny := countPos ytickvals
    .ok (nx, ny, { nxticks := some nx, nyticks := some ny })
  else
    match cache.nxticks, cache.nyticks with
    | some nx, some ny => .ok (nx, ny, cache)
    | some _, none => .error "AttributeError: nyticks"
    | none, _ => .error "No saved values for nxticks & nyticks."

/-- Embedding of source lines 58-110 of `get_target_diagram_axes`: resolve
the axis extremes from the data or the explicit `axismax`, run the auto
locator, resolve the tick counts through the cache, reassign the extremes
to the last auto tick in the auto case (a numpy `float64` scalar),
back-fill `option["axismax"]`, reconcile equal axes, and apply the
whole-number-to-int conversion exactly as written in the source: both
conversion guards test `type(maxx) is float` (the second one pairs it
with `maxy.is_integer()`). Returns
`((maxx, maxy), (nxticks, nyticks), axismax', cache')`. -/
def getTargetDiagramMaxes (x y : List ℚ) (axismax : PyNum) (equalaxes : String)
    (cache : TickCache) :
    Except String ((PyNum × PyNum) × (ℕ × ℕ) × PyNum × TickCache) :=
  let foundmax : Bool := decide (axismax.val ≠ 0)
  let maxx0 : ℚ := if foundmax then axismax.val else maxAbs x
  let maxy0 : ℚ := if foundmax then axismax.val else maxAbs y
  let xtickvals := tick_values (-(1 : ℚ) * maxx0) maxx0
  let ytickvals := tick_values (-(1 : ℚ) * maxy0) maxy0
  match determineTickCounts cache xtickvals ytickvals with
  | .error e => .error e
  | .ok (nx0, ny0, cache') =>
    let mx1 : PyNum := if foundmax then axismax else .npfloat (xtickvals.getLastD 0)
    let my1 : PyNum := if foundmax then axismax else .npfloat (ytickvals.getLastD 0)
    let axismax1 : PyNum := if foundmax then axismax else .npfloat (max mx1.val my1.val)
    let r :=
      if equalaxes = "on" then
        if my1.val < mx1.val then ((mx1, mx1), nx0, nx0) else ((my1, my1), ny0, ny0)
      else ((mx1, my1), nx0, ny0)
    let mx2 := r.1.1
    let my2 := r.1.2
    let mx3 := if mx2.isFloat && mx2.isInteger then PyNum.int (round mx2.val) else mx2
    let my3 := if mx3.isFloat && my2.isInteger then PyNum.int (round my2.val) else my2
    .ok ((mx3, my3), (r.2.1, r.2.2), axismax1, cache')

/-- Embedding of source lines 114-122: explicit `option["ticks"]` are used
verbatim for both axes; otherwise the tick increment is `max / nticks` and
the ticks are `np.arange(min, max + inc, inc)` with `min = -max`. -/
def determineTickValues (ticks : List ℚ) (maxx maxy : PyNum) (nxticks nyticks : ℕ) :
    List ℚ × List ℚ :=
  if 0 < ticks.length then (ticks, ticks)
  else
    let tincx := maxx.val / nxticks
    let tincy := maxy.val / nyticks
    (arange (-maxx.val) (maxx.val + tincx) tincx,
     arange (-maxy.val) (maxy.val + tincy) tincy)

/-- Modelled from the spec (§4.3): `get_axis_tick_label` converts a tick
value into its display string; integral values render without a decimal
point. The repository file `get_axis_tick_label.py` is not part of this
snapshot. -/
def get_axis_tick_label (v : ℚ) : String :=
  if v.den = 1 then toString v.num else toString v

/-- Embedding of source lines 125-128: an empty label-position option is
defaulted to the full tick sequence. -/
def resolveLabelPos (pos tick : List ℚ) : List ℚ :=
  if pos.length = 0 then tick else pos

/-- Embedding of `np.where(pos == v)` as used at source lines 153 and 171:
numpy returns a ONE-TUPLE whose single component is the array of matching
indices, here a singleton list holding the index list. `len` of that tuple
is its arity (always 1), not the number of matches. -/
def npWhere (pos : List ℚ) (v : ℚ) : List (List ℕ) :=
  [(List.range pos.length).filter (fun i => pos.getD i 0 == v)]

/-- Embedding of the tick-label loops at source lines 152-164 and 170-182:
for each tick, `index = np.where(labelpos == tick[i])`; the label is
emitted when `len(index) > 0` (the length of the one-tuple), otherwise the
empty string is appended; with the scientific-notation offset active the
tick value is scaled by `10 ^ (-offset)` before formatting. -/
def setTickLabels (tick labelpos : List ℚ) (isoffset : Bool) (theoffset : ℤ) :
    List String :=
  tick.map (fun t =>
    let index := npWhere labelpos t
    if 0 < index.length then
      if isoffset then get_axis_tick_label (t * (10 : ℚ) ^ (-theoffset))
      else get_axis_tick_label t
    else "")

/-- The indices of `np.where(abs(tick) < 1e-14)` inside `blank_at_zero`
(source lines 16-21). -/
def nearZeroIdx (tick : List ℚ) : List ℕ :=
  (List.range tick.length).filter (fun i => decide (|tick.getD i 0| < 1 / 10 ^ 14))

/-- Embedding of `blank_at_zero` (source lines 14-27): with no tick within
1e-14 of zero the source raises `ValueError`; with exactly one match,
`index[0].item()` yields that index and the label there is overwritten
with the empty string; with several matches `.item()` itself raises. -/
def blank_at_zero (tick : List ℚ) (label : List String) : Except String (List String) :=
  let index := nearZeroIdx tick
  if index.length = 0 then
    .error "Array must span negative to positive values tick="
  else if index.length = 1 then
    .ok (label.set (index.headD 0) "")
  else
    .error "can only convert an array of size 1 to a Python scalar"

/-!
Embedding of `plot_pattern_diagram_markers.py`. Drawing calls on the
matplotlib axes are recorded as data: the list of original point indices
passed to `ax.plot`, the accumulated legend labels and label colors, the
per-point text annotations of plain mode, whether
`warnings.warn("No markers within axis limit ranges.")` fired, and
whether `add_legend` was invoked.
-/

/-- The three runtime shapes of `option["markerlabel"]`: a string, a list
of per-point labels, or a dict mapping label text to a color. -/
inductive MarkerLabel where
  | str (s : String)
  | list (l : List String)
  | dict (d : List (String × String))
deriving DecidableEq, Repr

/-- Python `len(markerlabel)`. -/
def MarkerLabel.pyLen : MarkerLabel → ℕ
  | .str s => s.length
  | .list l => l.length
  | .dict d => d.length

/-- Python `isinstance(markerlabel, list)`. -/
def MarkerLabel.isList : MarkerLabel → Bool
  | .list _ => true
  | _ => false

/-- Python `isinstance(markerlabel, dict)`. -/
def MarkerLabel.isDict : MarkerLabel → Bool
  | .dict _ => true
  | _ => false

/-- Python `markerlabel == ""`: true only for the empty string; an empty
list or dict compares unequal to `""`. -/
def MarkerLabel.eqEmptyStr : MarkerLabel → Bool
  | .str s => s == ""
  | _ => false

/-- Python `markerlabel[i]` with an integer subscript: list indexing that
raises `IndexError` past the end, string indexing yielding a one-character
string, and a `KeyError` on a text-keyed dict. -/
def MarkerLabel.index : MarkerLabel → ℕ → Except String String
  | .list l, i =>
    match l.get? i with
    | some s => .ok s
    | none => .error "IndexError: list index out of range"
  | .str s, i =>
    if i < s.length then .ok (String.mk [s.toList.getD i ' '])
    else .error "IndexError: string index out of range"
  | .dict _, _ => .error "KeyError"

/-- Modelled from the spec (§6): the explicit `option["markers"]` override
unpacked by `get_single_markers` into per-point sequences of label,
label color, symbol, size, face color and edge color. The repository file
`get_single_markers.py` is not part of this snapshot. -/
structure SingleMarkers where
  labels : List String
  labelcolor : List String
  marker : List String
  markersize : List ℚ
  markerfacecolor : List String
  markeredgecolor : List String
deriving DecidableEq, Repr

/-- The `option` dictionary fields read by `plot_pattern_diagram_markers`. -/
structure PPDOption where
  alpha : ℚ
  markersize : ℚ
  markerlabel : MarkerLabel
  markerlegend : String
  markers : Option SingleMarkers
  axismax : ℚ
  markerlabelcolor : String
  markercolor : Option String
  markercolors : Option (Option String × Option String)
  markersymbol : String
deriving DecidableEq, Repr

/-- Observable outcome of a successful `plot_pattern_diagram_markers`
call. -/
structure RenderResult where
  drawnIndices : List ℕ
  legendLabels : List String
  labelColors : List String
  texts : List (ℕ × String)
  warned : Bool
  legendBuilt : Bool
deriving DecidableEq, Repr

/-- The `ValueError` message of source lines 65-76. -/
def insufficientLabelsMsg (nl nm : ℕ) : String :=
  "Insufficient number of marker labels provided.\n" ++
  "target: No. labels=" ++ toString nl ++ " < No. markers=" ++ toString nm ++ "\n" ++
  "taylor: No. labels=" ++ toString (nl + 1) ++ " < No. markers=" ++ toString (nm + 1)

/-- The `ValueError` message of source lines 78-83. -/
def tooManyLabelsMsg (nl : ℕ) : String :=
  "Insufficient number of marker labels provided.\n" ++
  "target: No. labels=" ++ toString nl ++ " > No. markers= 70"

/-- Embedding of the label-count validation at source lines 62-83: with a
non-empty `markerlabel`, a list shorter than `X` raises the two-count
message, and a dict with more than 70 entries raises the dict message. -/
def checkMarkerLabel (ml : MarkerLabel) (nX : ℕ) : Except String Unit :=
  if 0 < ml.pyLen then
    if ml.isList && decide (ml.pyLen < nX) then
      .error (insufficientLabelsMsg ml.pyLen nX)
    else if ml.isDict && decide (70 < ml.pyLen) then
      .error (tooManyLabelsMsg ml.pyLen)
    else .ok ()
  else .ok ()

/-- Embedding of the legend-mode loop with default markers (source lines
100-115): `for i, xval in enumerate(X)`, clip by
`abs(X[i]) <= limit and abs(Y[i]) <= limit` (short-circuit: `Y[i]` is only
read when the `X` test passes), plot the point, append the label color,
and append `option["markerlabel"][i]` — indexed at the ORIGINAL position
`i`. The symbol and color drawn come from `get_default_markers` and do not
affect the recorded outcome. -/
def defaultMarkerLoop (limit : ℚ) (ml : MarkerLabel) (lc : String) :
    List ℚ → List ℚ → ℕ → Except String (List ℕ × List String × List String)
  | [], _, _ => .ok ([], [], [])
  | x :: xs, ys, i =>
    if |x| ≤ limit then
      match ys with
      | [] => .error "IndexError: list index out of range"
      | y :: ys' =>
        if |y| ≤ limit then
          match ml.index i with
          | .error e => .error e
          | .ok lbl =>
            match defaultMarkerLoop limit ml lc xs ys' (i + 1) with
            | .error e => .error e
            | .ok (d, lcs, mls) => .ok (i :: d, lc :: lcs, lbl :: mls)
        else defaultMarkerLoop limit ml lc xs ys' (i + 1)
    else defaultMarkerLoop limit ml lc xs ys.tail (i + 1)

/-- Embedding of the legend-mode loop with an explicit `markers` override
(source lines 128-142): same clipping, per-point symbol and size from the
override sequences, label appended from `labels[i]`. -/
def singleMarkerLoop (limit : ℚ) (mk : SingleMarkers) :
    List ℚ → List ℚ → ℕ → Except String (List ℕ × List String)
  | [], _, _ => .ok ([], [])
  | x :: xs, ys, i =>
    if |x| ≤ limit then
      match ys with
      | [] => .error "IndexError: list index out of range"
      | y :: ys' =>
        if |y| ≤ limit then
          match mk.marker.get? i, mk.labels.get? i with
          | some _, some lbl =>
            match singleMarkerLoop limit mk xs ys' (i + 1) with
            | .error e => .error e
            | .ok (d, mls) => .ok (i :: d, lbl :: mls)
          | _, _ => .error "IndexError: list index out of range"
        else singleMarkerLoop limit mk xs ys' (i + 1)
    else singleMarkerLoop limit mk xs ys.tail (i + 1)

/-- Embedding of the plain-mode loop (source lines 169-196):
`xval, yval = X[i], Y[i]` reads `Y[i]` unconditionally; clipped points get
a dot and a label color, and when `markerlabel` is a list a text
annotation `markerlabel[i]` anchored at the point. -/
def plainModeLoop (limit : ℚ) (ml : MarkerLabel) (lc : String) :
    List ℚ → List ℚ → ℕ → Except String (List ℕ × List String × List (ℕ × String))
  | [], _, _ => .ok ([], [], [])
  | _ :: _, [], _ => .error "IndexError: list index out of range"
  | x :: xs, y :: ys, i =>
    if |x| ≤ limit ∧ |y| ≤ limit then
      match ml with
      | .list l =>
        match l.get? i with
        | none => .error "IndexError: list index out of range"
        | some t =>
          match plainModeLoop limit ml lc xs ys (i + 1) with
          | .error e => .error e
          | .ok (d, lcs, ts) => .ok (i :: d, lc :: lcs, (i, t) :: ts)
      | _ =>
        match plainModeLoop limit ml lc xs ys (i + 1) with
        | .error e => .error e
        | .ok (d, lcs, ts) => .ok (i :: d, lc :: lcs, ts)
    else plainModeLoop limit ml lc xs ys (i + 1)

/-- Modelled from the spec (§4.5): `get_from_dict_or_default` resolves a
color from `option["markercolor"]`, falling back to the edge/face split in
`option["markercolors"]`. The repository file
`get_from_dict_or_default.py` is not part of this snapshot. -/
def get_from_dict_or_default (option : PPDOption) (edge : Bool) : Option String :=
  match option.markercolor with
  | some c => some c
  | none =>
    match option.markercolors with
    | some mc => if edge then mc.1 else mc.2
    | none => none

/-- Embedding of `plot_pattern_diagram_markers` (source lines 13-209):
label-count validation, then either legend mode — the missing-labels check
`option["markerlabel"] == "" and option["markers"] == None`, the clipping
loop for default or explicit markers, and the warn-or-build-legend choice
on the accumulated labels — or plain mode with uniform colors, optional
per-point texts, and a legend only for a dict `markerlabel`. -/
def plot_pattern_diagram_markers (X Y : List ℚ) (option : PPDOption) :
    Except String RenderResult :=
  match checkMarkerLabel option.markerlabel X.length with
  | .error e => .error e
  | .ok _ =>
    if option.markerlegend = "on" then
      if option.markerlabel.eqEmptyStr && option.markers.isNone then
        .error "No marker labels provided."
      else
        match option.markers with
        | none =>
          match defaultMarkerLoop option.axismax option.markerlabel
              option.markerlabelcolor X Y 0 with
          | .error e => .error e
          | .ok (drawn, lcs, mls) =>
            if mls.length = 0 then
              .ok { drawnIndices := drawn, legendLabels := [], labelColors := lcs,
                    texts := [], warned := true, legendBuilt := false }
            else
              .ok { drawnIndices := drawn, legendLabels := mls, labelColors := lcs,
                    texts := [], warned := false, legendBuilt := true }
        | some mk =>
          match singleMarkerLoop option.axismax mk X Y 0 with
          | .error e => .error e
          | .ok (drawn, mls) =>
            if mls.length = 0 then
              .ok { drawnIndices := drawn, legendLabels := [],
                    labelColors := mk.labelcolor, texts := [], warned := true,
                    legendBuilt := false }
            else
              .ok { drawnIndices := drawn, legendLabels := mls,
                    labelColors := mk.labelcolor, texts := [], warned := false,
                    legendBuilt := true }
    else
      let edge_color := (get_from_dict_or_default option true).getD "r"
      let _face_color := (get_from_dict_or_default option false).getD edge_color
      match plainModeLoop option.axismax option.markerlabel
          option.markerlabelcolor X Y 0 with
      | .error e => .error e
      | .ok (drawn, lcs, ts) =>
        match option.markerlabel with
        | .dict d =>
          .ok { drawnIndices := drawn, legendLabels := d.map Prod.fst,
                labelColors := lcs, texts := ts, warned := false,
                legendBuilt := true }
        | _ =>
          .ok { drawnIndices := drawn, legendLabels := [], labelColors := lcs,
                texts := ts, warned := false, legendBuilt := false }

/-- Companion of the legend-mode clipping loops: the original indices of
the points inside the axis box, in order. -/
def drawnAux (limit : ℚ) : List ℚ → List ℚ → ℕ → List ℕ
  | x :: xs, y :: ys, i =>
    if |x| ≤ limit ∧ |y| ≤ limit then i :: drawnAux limit xs ys (i + 1)
    else drawnAux limit xs ys (i + 1)
  | _, _, _ => []

/-- Concrete option dictionary for the C6 witness: legend on, default
markers, `axismax = 5`, labels `["A", "B"]`. -/
def c6Option : PPDOption :=
  { alpha := 1, markersize := 10, markerlabel := .list ["A", "B"],
    markerlegend := "on", markers := none, axismax := 5,
    markerlabelcolor := "k", markercolor := none, markercolors := none,
    markersymbol := "+" }

/-- Concrete option dictionary for the C7 witness: one label for two
points. -/
def c7Option : PPDOption :=
  { alpha := 1, markersize := 10, markerlabel := .list ["M1"],
    markerlegend := "off", markers := none, axismax := 1,
    markerlabelcolor := "k", markercolor := none, markercolors := none,
    markersymbol := "+" }

/-- Concrete option dictionary for the C8 counterexample: legend on, no
`markers` override, and the EMPTY-LIST form of `markerlabel`. -/
def c8Option : PPDOption :=
  { alpha := 1, markersize := 10, markerlabel := .list [],
    markerlegend := "on", markers := none, axismax := 5,
    markerlabelcolor := "k", markercolor := none, markercolors := none,
    markersymbol := "+" }

/-- Concrete option dictionary for the witness of C8's amended claim: the
empty-STRING form of `markerlabel`. -/
def c8aOption : PPDOption :=
  { alpha := 1, markersize := 10, markerlabel := .str "",
    markerlegend := "on", markers := none, axismax := 5,
    markerlabelcolor := "k", markercolor := none, markercolors := none,
    markersymbol := "+" }

/-- Concrete option dictionary for the C10 witness: three labels, legend
on. -/
def c10Option : PPDOption :=
  { alpha := 1, markersize := 10, markerlabel := .list ["A", "B", "C"],
    markerlegend := "on", markers := none, axismax := 5,
    markerlabelcolor := "k", markercolor := none, markercolors := none,
    markersymbol := "+" }

/-!
Theorems. Claim ids refer to CLAIMS.json.
-/

/-- Normal form of the auto tick sequence: for `0 < m` and `0 < n`,
`np.arange(-m, m + m/n, m/n)` has exactly `2n + 1` elements
`-m + k * (m/n)`. -/
theorem arange_auto_eq (m : ℚ) (n : ℕ) (hm : 0 < m) (hn : 0 < n) :
    arange (-m) (m + m / n) (m / n)
      = (List.range (2 * n + 1)).map (fun k : ℕ => -m + (k : ℚ) * (m / n)) := by
  unfold arange
  have hn' : (n : ℚ) ≠ 0 := Nat.cast_ne_zero.mpr hn.ne'
  have hm' : m ≠ 0 := hm.ne'
  have h1 : ((m + m / n) - (-m)) / (m / n) = ((2 * n + 1 : ℕ) : ℚ) := by
    push_cast
    field_simp
    ring
  rw [h1, Int.ceil_natCast]
  congr 1

/-- The auto tick sequence is strictly increasing, contains zero, and is
closed under negation. -/
theorem autoTicks_props (m : ℚ) (n : ℕ) (hm : 0 < m) (hn : 0 < n) :
    (arange (-m) (m + m / n) (m / n)).Pairwise (· < ·) ∧
    (0 : ℚ) ∈ arange (-m) (m + m / n) (m / n) ∧
    ∀ v ∈ arange (-m) (m + m / n) (m / n), -v ∈ arange (-m) (m + m / n) (m / n) := by
  have hn' : (n : ℚ) ≠ 0 := Nat.cast_ne_zero.mpr hn.ne'
  have hstep : 0 < m / n := div_pos hm (by exact_mod_cast hn)
  rw [arange_auto_eq m n hm hn]
  refine ⟨?_, ?_, ?_⟩
  · refine List.Pairwise.map _ (fun a b hab => ?_) (List.pairwise_lt_range _)
    have hcast : (a : ℚ) < b := by exact_mod_cast hab
    have := mul_lt_mul_of_pos_right hcast hstep
    linarith
  · refine List.mem_map.mpr ⟨n, List.mem_range.mpr (by omega), ?_⟩
    field_simp
  · intro v hv
    obtain ⟨k, hk, rfl⟩ := List.mem_map.mp hv
    have hk' : k ≤ 2 * n := by
      have := List.mem_range.mp hk
      omega
    refine List.mem_map.mpr ⟨2 * n - k, List.mem_range.mpr (by omega), ?_⟩
    have hc : ((2 * n - k : ℕ) : ℚ) = 2 * (n : ℚ) - (k : ℚ) := by
      push_cast [Nat.cast_sub hk']
      ring
    rw [hc]
    field_simp
    ring

/-- C2: when `option["ticks"]` is non-empty, `get_target_diagram_axes`
returns it verbatim as both `xtick` and `ytick`; otherwise, for a
symmetric auto range with a positive extreme and a positive tick count,
each generated tick sequence is strictly increasing, contains zero, and
is symmetric about zero. -/
theorem c2_tick_sequence_invariants (ticks : List ℚ) (mx my : PyNum) (nx ny : ℕ) :
    (ticks ≠ [] → determineTickValues ticks mx my nx ny = (ticks, ticks)) ∧
    (ticks = [] → 0 < mx.val → 0 < nx →
      ((determineTickValues ticks mx my nx ny).1.Pairwise (· < ·) ∧
        (0 : ℚ) ∈ (determineTickValues ticks mx my nx ny).1 ∧
        ∀ v ∈ (determineTickValues ticks mx my nx ny).1,
          -v ∈ (determineTickValues ticks mx my nx ny).1)) ∧
    (ticks = [] → 0 < my.val → 0 < ny →
      ((determineTickValues ticks mx my nx ny).2.Pairwise (· < ·) ∧
        (0 : ℚ) ∈ (determineTickValues ticks mx my nx ny).2 ∧
        ∀ v ∈ (determineTickValues ticks mx my nx ny).2,
          -v ∈ (determineTickValues ticks mx my nx ny).2)) := by
  refine ⟨?_, ?_, ?_⟩
  · intro h
    simp [determineTickValues, List.length_pos.mpr h]
  · intro h h1 h2
    subst h
    simp only [determineTickValues, List.length_nil, lt_irrefl, if_neg (by omega : ¬ (0:ℕ) < 0)]
    exact autoTicks_props mx.val nx h1 h2
  · intro h h1 h2
    subst h
    simp only [determineTickValues, List.length_nil, lt_irrefl, if_neg (by omega : ¬ (0:ℕ) < 0)]
    exact autoTicks_props my.val ny h1 h2

/-- Witness for C2 at concrete inputs: the verbatim branch at
`ticks = [3, 7]`, and the auto branch at `max = 2`, `nticks = 2`, whose
tick sequence is `[-2, -1, 0, 1, 2]`. -/
theorem c2_tick_sequence_invariants_witness :
    (([3, 7] : List ℚ) ≠ [] ∧
      determineTickValues [3, 7] (.float 2) (.float 2) 2 2 = ([3, 7], [3, 7])) ∧
    ((0 : ℚ) < (PyNum.float 2).val ∧ (0 : ℕ) < 2 ∧
      ((determineTickValues [] (.float 2) (.float 2) 2 2).1.Pairwise (· < ·) ∧
        (0 : ℚ) ∈ (determineTickValues [] (.float 2) (.float 2) 2 2).1 ∧
        ∀ v ∈ (determineTickValues [] (.float 2) (.float 2) 2 2).1,
          -v ∈ (determineTickValues [] (.float 2) (.float 2) 2 2).1)) :=
  ⟨⟨by decide, (c2_tick_sequence_invariants [3, 7] (.float 2) (.float 2) 2 2).1 (by decide)⟩,
   by decide, by decide,
   (c2_tick_sequence_invariants [] (.float 2) (.float 2) 2 2).2.1 rfl (by decide) (by decide)⟩

/-- C1 (divergence witness): in the tick-label loop the source tests
`len(index) > 0` on the ONE-TUPLE returned by `np.where`, whose length is
always 1, so the position filter never suppresses a label and the `else`
branch appending "" is dead code. For ticks `[-10, -5, 0, 5, 10]` with
`xticklabelpos = [-10, 10]` the produced labels are
`["-10", "-5", "", "5", "10"]`: the ticks -5 and 5, absent from the
filter, still receive non-empty labels (only the zero tick is blanked, by
`blank_at_zero`), contradicting the claim that all ticks outside the
filter get the empty string. -/
theorem c1_label_position_filter_is_dead :
    blank_at_zero [-10, -5, 0, 5, 10]
        (setTickLabels [-10, -5, 0, 5, 10]
          (resolveLabelPos [-10, 10] [-10, -5, 0, 5, 10]) false 0)
      = .ok ["-10", "-5", "", "5", "10"] := by
  with_unfolding_all rfl

set_option maxRecDepth 8000 in
/-- C3 (divergence witness): with `axismax = 0.0`, `X = [1, -3, 2]`,
`Y = [0, 4, -1]` and equal axes off, the resolved extremes have the
claimed VALUES 3 and 4, but neither is normalized to an integer: both are
numpy `float64` scalars (the last auto tick), for which the source's
`type(maxx) is float` guard is false — and the second guard tests `maxx`'s
type where it should test `maxy`'s. -/
theorem c3_extremes_not_normalized_to_int :
    getTargetDiagramMaxes [1, -3, 2] [0, 4, -1] (.float 0) "off" ⟨none, none⟩
      = .ok ((.npfloat 3, .npfloat 4), (3, 4), .npfloat 4,
             { nxticks := some 3, nyticks := some 4 }) := by
  with_unfolding_all rfl

/-- C4: when the auto locator yields zero strictly positive ticks, the
cached counts from a previous call are reused when present, and the call
fails with the `ValueError` when no counts were ever saved. -/
theorem c4_degenerate_count_fallback (cache : TickCache) (xt yt : List ℚ)
    (hdeg : countPos xt = 0) :
    (∀ a b, cache = ⟨some a, some b⟩ →
        determineTickCounts cache xt yt = .ok (a, b, cache)) ∧
    (cache = ⟨none, none⟩ →
        determineTickCounts cache xt yt
          = .error "No saved values for nxticks & nyticks.") := by
  constructor
  · rintro a b rfl
    simp [determineTickCounts, hdeg]
  · rintro rfl
    simp [determineTickCounts, hdeg]

/-- Witness for C4: degenerate tick list `[0]`, once with counts `(3, 4)`
cached and once with the empty cache. -/
theorem c4_degenerate_count_fallback_witness :
    countPos [(0 : ℚ)] = 0 ∧
    determineTickCounts ⟨some 3, some 4⟩ [0] [0] = .ok (3, 4, ⟨some 3, some 4⟩) ∧
    determineTickCounts ⟨none, none⟩ [0] [0]
      = .error "No saved values for nxticks & nyticks." :=
  ⟨by decide,
   (c4_degenerate_count_fallback ⟨some 3, some 4⟩ [0] [0] (by decide)).1 3 4 rfl,
   (c4_degenerate_count_fallback ⟨none, none⟩ [0] [0] (by decide)).2 rfl⟩

/-- C5 (counterexample): the tick-count cache is a process-wide function
attribute, so a degenerate call for one diagram DOES depend on calls made
for another. The same degenerate call (`xtickvals = [0]`) errors when it
is the first call in the process, but succeeds — reusing counts `(1, 1)` —
after a fresh call for an unrelated diagram populated the cache. -/
theorem c5_cross_diagram_dependence :
    determineTickCounts ⟨none, none⟩ [0] [0]
        = .error "No saved values for nxticks & nyticks." ∧
    determineTickCounts ⟨none, none⟩ [-5, 0, 5] [-5, 0, 5]
        = .ok (1, 1, ⟨some 1, some 1⟩) ∧
    determineTickCounts ⟨some 1, some 1⟩ [0] [0]
        = .ok (1, 1, ⟨some 1, some 1⟩) :=
  ⟨by with_unfolding_all rfl, by with_unfolding_all rfl, by with_unfolding_all rfl⟩

/-- C5 (amended): the cache is process-wide, not per-diagram — after ANY
call that returns counts `(a, b)` with cache `c`, a degenerate call (for
whatever diagram) returns exactly those counts. -/
theorem c5_amended_process_wide_cache (cache0 c : TickCache)
    (xtA ytA xtB ytB : List ℚ) (a b : ℕ)
    (hA : determineTickCounts cache0 xtA ytA = .ok (a, b, c))
    (hB : countPos xtB = 0) :
    determineTickCounts c xtB ytB = .ok (a, b, c) := by
  unfold determineTickCounts at hA ⊢
  by_cases h : 0 < countPos xtA
  · rw [if_pos h] at hA
    rw [if_neg (by omega : ¬ 0 < countPos xtB)]
    simp only [Except.ok.injEq, Prod.mk.injEq] at hA
    obtain ⟨rfl, rfl, rfl⟩ := hA
    rfl
  · rw [if_neg h] at hA
    rw [if_neg (by omega : ¬ 0 < countPos xtB)]
    obtain ⟨cnx, cny⟩ := cache0
    rcases cnx with _ | nx <;> rcases cny with _ | ny <;> simp_all
    obtain ⟨rfl, rfl, rfl⟩ := hA
    rfl

/-- Witness for C5's amended claim: a fresh call with ticks `[-5, 0, 5]`
caches `(1, 1)`; the following degenerate call returns those counts. -/
theorem c5_amended_process_wide_cache_witness :
    countPos [(0 : ℚ)] = 0 ∧
    determineTickCounts ⟨some 1, some 1⟩ [0] [0] = .ok (1, 1, ⟨some 1, some 1⟩) :=
  ⟨by decide,
   c5_amended_process_wide_cache ⟨none, none⟩ ⟨some 1, some 1⟩
     [-5, 0, 5] [-5, 0, 5] [0] [0] 1 1 (by with_unfolding_all rfl) (by decide)⟩

/-- C9: `blank_at_zero` raises the `ValueError` when no tick is within
1e-14 of zero, and when exactly one tick is, the label at that index — and
only that index — is overwritten with the empty string, whatever labels
the position filter produced. -/
theorem c9_blank_at_zero_spec (tick : List ℚ) (label : List String) :
    (nearZeroIdx tick = [] →
        blank_at_zero tick label
          = .error "Array must span negative to positive values tick=") ∧
    ∀ i, nearZeroIdx tick = [i] →
        blank_at_zero tick label = .ok (label.set i "") := by
  constructor
  · intro h
    simp [blank_at_zero, h]
  · intro i h
    simp [blank_at_zero, h]

/-- Witness for C9: for ticks `[-10, -5, 0, 5, 10]` the blanked index is
2 whatever the labels are, and the all-positive sequence `[1, 2]` errors. -/
theorem c9_blank_at_zero_spec_witness :
    nearZeroIdx [-10, -5, 0, 5, 10] = [2] ∧
    blank_at_zero [-10, -5, 0, 5, 10] ["a", "b", "c", "d", "e"]
      = .ok (["a", "b", "c", "d", "e"].set 2 "") ∧
    nearZeroIdx [1, 2] = [] ∧
    blank_at_zero [1, 2] ["p", "q"]
      = .error "Array must span negative to positive values tick=" :=
  ⟨by with_unfolding_all rfl,
   (c9_blank_at_zero_spec [-10, -5, 0, 5, 10] ["a", "b", "c", "d", "e"]).2 2
     (by with_unfolding_all rfl),
   by with_unfolding_all rfl,
   (c9_blank_at_zero_spec [1, 2] ["p", "q"]).1 (by with_unfolding_all rfl)⟩

/-- On a list `markerlabel`, Python indexing succeeds below the length and
returns the element. -/
theorem markerLabel_index_list (l : List String) (i : ℕ) (hi : i < l.length) :
    MarkerLabel.index (.list l) i = .ok (l.getD i "") := by
  simp only [MarkerLabel.index]
  rw [List.get?_eq_getElem?, List.getElem?_eq_getElem hi]
  simp [List.getD_eq_getElem?_getD, List.getElem?_eq_getElem hi]

/-- The legend-mode default-marker loop over list labels long enough for
every index never raises: it returns the clipped index list `drawnAux`,
one label color per drawn point, and the label at each drawn point's
original index. -/
theorem defaultMarkerLoop_list_eq (limit : ℚ) (l : List String) (lc : String) :
    ∀ (xs ys : List ℚ) (i : ℕ), ys.length = xs.length → i + xs.length ≤ l.length →
      defaultMarkerLoop limit (.list l) lc xs ys i
        = .ok (drawnAux limit xs ys i,
               (drawnAux limit xs ys i).map (fun _ => lc),
               (drawnAux limit xs ys i).map (fun j => l.getD j "")) := by
  intro xs
  induction xs with
  | nil =>
    intro ys i h1 h2
    simp [defaultMarkerLoop, drawnAux]
  | cons x xs ih =>
    intro ys i h1 h2
    cases ys with
    | nil => simp at h1
    | cons y ys' =>
      simp only [List.length_cons] at h1 h2
      have h1' : ys'.length = xs.length := by omega
      have h2' : (i + 1) + xs.length ≤ l.length := by omega
      have hi : i < l.length := by omega
      by_cases hx : |x| ≤ limit
      · by_cases hy : |y| ≤ limit
        · simp only [defaultMarkerLoop, if_pos hx, if_pos hy,
            markerLabel_index_list l i hi, ih ys' (i + 1) h1' h2']
          simp [drawnAux, hx, hy]
        · simp only [defaultMarkerLoop, if_pos hx, if_neg hy, ih ys' (i + 1) h1' h2']
          simp [drawnAux, hx, hy]
      · simp only [defaultMarkerLoop, if_neg hx, List.tail_cons, ih ys' (i + 1) h1' h2']
        simp [drawnAux, hx]

/-- Membership in `drawnAux`: exactly the indices `i + k` of in-range
positions `k` whose coordinates both lie inside the clipping box. -/
theorem mem_drawnAux (limit : ℚ) :
    ∀ (xs ys : List ℚ) (i j : ℕ),
      j ∈ drawnAux limit xs ys i ↔
        ∃ k, k < xs.length ∧ k < ys.length ∧ j = i + k ∧
          |xs.getD k 0| ≤ limit ∧ |ys.getD k 0| ≤ limit := by
  intro xs
  induction xs with
  | nil =>
    intro ys i j
    simp [drawnAux]
  | cons x xs ih =>
    intro ys i j
    cases ys with
    | nil => simp [drawnAux]
    | cons y ys' =>
      by_cases hxy : |x| ≤ limit ∧ |y| ≤ limit
      · simp only [drawnAux, if_pos hxy, List.mem_cons, ih ys' (i + 1) j]
        constructor
        · rintro (rfl | ⟨k, hk1, hk2, rfl, ha, hb⟩)
          · exact ⟨0, by simp, by simp, by omega,
              by simpa using hxy.1, by simpa using hxy.2⟩
          · exact ⟨k + 1, by simpa using hk1, by simpa using hk2, by omega,
              by simpa using ha, by simpa using hb⟩
        · rintro ⟨k, hk1, hk2, hj, ha, hb⟩
          cases k with
          | zero => left; omega
          | succ k' =>
            right
            exact ⟨k', by simpa using hk1, by simpa using hk2, by omega,
              by simpa using ha, by simpa using hb⟩
      · simp only [drawnAux, if_neg hxy, ih ys' (i + 1) j]
        constructor
        · rintro ⟨k, hk1, hk2, hj, ha, hb⟩
          exact ⟨k + 1, by simpa using hk1, by simpa using hk2, by omega,
            by simpa using ha, by simpa using hb⟩
        · rintro ⟨k, hk1, hk2, hj, ha, hb⟩
          cases k with
          | zero =>
            exfalso
            exact hxy ⟨by simpa using ha, by simpa using hb⟩
          | succ k' =>
            exact ⟨k', by simpa using hk1, by simpa using hk2, by omega,
              by simpa using ha, by simpa using hb⟩

/-- The label-count validation passes for a list at least as long as `X`. -/
theorem checkMarkerLabel_list_ok (l : List String) (nX : ℕ) (hlen : nX ≤ l.length) :
    checkMarkerLabel (.list l) nX = .ok () := by
  unfold checkMarkerLabel
  by_cases h0 : 0 < (MarkerLabel.list l).pyLen
  · rw [if_pos h0]
    have hc1 : ((MarkerLabel.list l).isList
        && decide ((MarkerLabel.list l).pyLen < nX)) = false := by
      simp only [MarkerLabel.isList, MarkerLabel.pyLen, Bool.true_and,
        decide_eq_false_iff_not]
      omega
    rw [hc1]
    simp [MarkerLabel.isDict]
  · rw [if_neg h0]

/-- C6: in legend mode with default markers and enough list labels, the
call succeeds; a point is drawn exactly when both its coordinates lie
within `axismax` in absolute value, every drawn index is a real point
index, the legend holds one label per drawn point, and zero surviving
points produce the warning with no legend while a non-empty survivor set
produces the legend with no warning. -/
theorem c6_legend_mode_clipping (X Y : List ℚ) (option : PPDOption) (l : List String)
    (hleg : option.markerlegend = "on") (hmk : option.markers = none)
    (hml : option.markerlabel = .list l) (hlen : X.length ≤ l.length)
    (hXY : Y.length = X.length) :
    ∃ r, plot_pattern_diagram_markers X Y option = .ok r ∧
      (∀ i, i < X.length →
        (i ∈ r.drawnIndices ↔
          |X.getD i 0| ≤ option.axismax ∧ |Y.getD i 0| ≤ option.axismax)) ∧
      (∀ j ∈ r.drawnIndices, j < X.length) ∧
      r.legendLabels.length = r.drawnIndices.length ∧
      (r.drawnIndices = [] → r.warned = true ∧ r.legendBuilt = false) ∧
      (r.drawnIndices ≠ [] → r.warned = false ∧ r.legendBuilt = true) := by
  have hchk : checkMarkerLabel option.markerlabel X.length = .ok () := by
    rw [hml]
    exact checkMarkerLabel_list_ok l X.length hlen
  have hloop := defaultMarkerLoop_list_eq option.axismax l option.markerlabelcolor
    X Y 0 hXY (by omega)
  have hmem : ∀ i, i < X.length →
      (i ∈ drawnAux option.axismax X Y 0 ↔
        |X.getD i 0| ≤ option.axismax ∧ |Y.getD i 0| ≤ option.axismax) := by
    intro i hi
    rw [mem_drawnAux]
    constructor
    · rintro ⟨k, hk1, hk2, hik, ha, hb⟩
      obtain rfl : k = i := by omega
      exact ⟨ha, hb⟩
    · rintro ⟨ha, hb⟩
      exact ⟨i, hi, by omega, by omega, ha, hb⟩
  have hbound : ∀ j ∈ drawnAux option.axismax X Y 0, j < X.length := by
    intro j hj
    rw [mem_drawnAux] at hj
    obtain ⟨k, hk1, _, hj', _, _⟩ := hj
    omega
  unfold plot_pattern_diagram_markers
  rw [hchk, hleg, if_pos rfl, hml, hmk]
  rw [if_neg (by simp [MarkerLabel.eqEmptyStr])]
  rw [hloop]
  dsimp only
  by_cases hD0 : drawnAux option.axismax X Y 0 = []
  · rw [if_pos (by simp [hD0])]
    refine ⟨_, rfl, ?_, ?_, ?_, ?_, ?_⟩
    · simpa using hmem
    · simpa using hbound
    · simp [hD0]
    · intro _
      exact ⟨rfl, rfl⟩
    · intro h
      exact absurd hD0 h
  · rw [if_neg (by simp [hD0])]
    refine ⟨_, rfl, ?_, ?_, ?_, ?_, ?_⟩
    · simpa using hmem
    · simpa using hbound
    · simp
    · intro h
      exact absurd h hD0
    · intro _
      exact ⟨rfl, rfl⟩

/-- Witness for C6: `axismax = 5`, points `(6, 0)` and `(1, 1)` — the
first is clipped, the second drawn and labelled. -/
theorem c6_legend_mode_clipping_witness :
    ([6, 1] : List ℚ).length ≤ (["A", "B"] : List String).length ∧
    ∃ r, plot_pattern_diagram_markers [6, 1] [0, 1] c6Option = .ok r ∧
      (∀ i, i < ([6, 1] : List ℚ).length →
        (i ∈ r.drawnIndices ↔
          |([6, 1] : List ℚ).getD i 0| ≤ c6Option.axismax ∧
          |([0, 1] : List ℚ).getD i 0| ≤ c6Option.axismax)) ∧
      (∀ j ∈ r.drawnIndices, j < ([6, 1] : List ℚ).length) ∧
      r.legendLabels.length = r.drawnIndices.length ∧
      (r.drawnIndices = [] → r.warned = true ∧ r.legendBuilt = false) ∧
      (r.drawnIndices ≠ [] → r.warned = false ∧ r.legendBuilt = true) :=
  ⟨by decide,
   c6_legend_mode_clipping [6, 1] [0, 1] c6Option ["A", "B"] rfl rfl rfl (by decide) rfl⟩

/-- C10: in legend mode with default markers, the drawn indices are the
clipped original positions and the accumulated legend labels are exactly
`markerlabel` indexed at those original positions — a clipped point's
label disappears and later labels never shift onto earlier points. -/
theorem c10_legend_labels_original_positions (X Y : List ℚ) (option : PPDOption)
    (l : List String)
    (hleg : option.markerlegend = "on") (hmk : option.markers = none)
    (hml : option.markerlabel = .list l) (hlen : X.length ≤ l.length)
    (hXY : Y.length = X.length) :
    ∃ r, plot_pattern_diagram_markers X Y option = .ok r ∧
      r.drawnIndices = drawnAux option.axismax X Y 0 ∧
      r.legendLabels = r.drawnIndices.map (fun i => l.getD i "") := by
  have hchk : checkMarkerLabel option.markerlabel X.length = .ok () := by
    rw [hml]
    exact checkMarkerLabel_list_ok l X.length hlen
  have hloop := defaultMarkerLoop_list_eq option.axismax l option.markerlabelcolor
    X Y 0 hXY (by omega)
  unfold plot_pattern_diagram_markers
  rw [hchk, hleg, if_pos rfl, hml, hmk]
  rw [if_neg (by simp [MarkerLabel.eqEmptyStr])]
  rw [hloop]
  dsimp only
  by_cases hD0 : drawnAux option.axismax X Y 0 = []
  · rw [if_pos (by simp [hD0])]
    exact ⟨_, rfl, by simp, by simp [hD0]⟩
  · rw [if_neg (by simp [hD0])]
    exact ⟨_, rfl, by simp, by simp⟩

/-- Witness for C10: point 0 at `(6, 0)` is clipped; the legend labels are
`["B", "C"]`, still aligned with drawn indices 1 and 2. -/
theorem c10_legend_labels_original_positions_witness :
    ([6, 1, 2] : List ℚ).length ≤ (["A", "B", "C"] : List String).length ∧
    ∃ r, plot_pattern_diagram_markers [6, 1, 2] [0, 1, 2] c10Option = .ok r ∧
      r.drawnIndices = drawnAux c10Option.axismax [6, 1, 2] [0, 1, 2] 0 ∧
      r.legendLabels = r.drawnIndices.map (fun i => (["A", "B", "C"] : List String).getD i "") :=
  ⟨by decide,
   c10_legend_labels_original_positions [6, 1, 2] [0, 1, 2] c10Option ["A", "B", "C"]
     rfl rfl rfl (by decide) rfl⟩

/-- C7: a list `markerlabel` with fewer entries than points raises the
`ValueError` whose message names both the target-diagram counts
(`len(markerlabel) < len(X)`) and the Taylor-diagram counts
(`len(markerlabel)+1 < len(X)+1`), before anything is drawn. -/
theorem c7_insufficient_labels (X Y : List ℚ) (option : PPDOption) (l : List String)
    (hml : option.markerlabel = .list l) (h0 : 0 < l.length)
    (hlt : l.length < X.length) :
    plot_pattern_diagram_markers X Y option
      = .error (insufficientLabelsMsg l.length X.length) := by
  unfold plot_pattern_diagram_markers
  have hchk : checkMarkerLabel option.markerlabel X.length
      = .error (insufficientLabelsMsg l.length X.length) := by
    rw [hml]
    unfold checkMarkerLabel
    rw [if_pos (by simpa [MarkerLabel.pyLen] using h0)]
    rw [if_pos (by simp [MarkerLabel.isList, MarkerLabel.pyLen, hlt])]
    rfl
  rw [hchk]

/-- Witness for C7 at the claim's concrete input: `X = [1, 2]`,
`Y = [1, 2]`, `markerlabel = ["M1"]`. -/
theorem c7_insufficient_labels_witness :
    c7Option.markerlabel = .list ["M1"] ∧
    0 < (["M1"] : List String).length ∧
    (["M1"] : List String).length < ([1, 2] : List ℚ).length ∧
    plot_pattern_diagram_markers [1, 2] [1, 2] c7Option
      = .error (insufficientLabelsMsg 1 2) :=
  ⟨rfl, by decide, by decide,
   c7_insufficient_labels [1, 2] [1, 2] c7Option ["M1"] rfl (by decide) (by decide)⟩

/-- C8 (counterexample): with the EMPTY-LIST form `markerlabel = []`,
legend on and no `markers` override, the claimed configuration error
`"No marker labels provided."` is NOT raised: the source's check compares
`markerlabel == ""`, which is false for a list, so the call proceeds into
the drawing loop — it plots the in-range point `(1, 1)` and only then dies
on the out-of-range list access `markerlabel[0]`, an `IndexError`. -/
theorem c8_empty_list_no_config_error :
    plot_pattern_diagram_markers [1] [1] c8Option
      = .error "IndexError: list index out of range" := by
  with_unfolding_all rfl

/-- C8 (amended): the `"No marker labels provided."` configuration error
is raised — before any drawing — exactly for the empty-STRING form of
`markerlabel` (with no `markers` override), the form the options
constructor uses for "unset". -/
theorem c8_amended_empty_string_error (X Y : List ℚ) (option : PPDOption)
    (hleg : option.markerlegend = "on") (hml : option.markerlabel = .str "")
    (hmk : option.markers = none) :
    plot_pattern_diagram_markers X Y option = .error "No marker labels provided." := by
  unfold plot_pattern_diagram_markers
  have hchk : checkMarkerLabel option.markerlabel X.length = .ok () := by
    rw [hml]
    rfl
  rw [hchk, hleg, if_pos rfl, hml, hmk]
  rw [if_pos (by simp [MarkerLabel.eqEmptyStr, Option.isNone])]

/-- Witness for C8's amended claim: `markerlabel = ""` with legend on
raises the configuration error. -/
theorem c8_amended_empty_string_error_witness :
    c8aOption.markerlegend = "on" ∧ c8aOption.markerlabel = .str "" ∧
    c8aOption.markers = none ∧
    plot_pattern_diagram_markers [1] [1] c8aOption
      = .error "No marker labels provided." :=
  ⟨rfl, rfl, rfl, c8_amended_empty_string_error [1] [1] c8aOption rfl rfl rfl⟩
